import Mathlib

/-!
Formal model of the loadtimes webapp (main.go): the `Endpoint` handler that
turns a decoded batch of client resource-timing records into spans, and the
time-windowed span store the collector writes into.

Time values are modelled as integer nanoseconds since the Unix epoch
(Go `time.Time` / `UnixNano`).  The floating-point duration fields arriving
in the JSON body are modelled as rationals; the input values are decimal
numbers, which float64 represents exactly at the magnitudes involved.
-/

namespace Loadtimes

/-- Source model (main.go, `ClientCallInfo`): one decoded element of the JSON
request body.  `endTime` carries the resource duration in milliseconds (the
page script stores `val.duration` into the `endTime` field). -/
structure ClientCallInfo where
  name : String
  entryType : String
  startTime : ℚ
  endTime : ℚ
  initiatorType : String
deriving DecidableEq

/-- Source model (main.go, `RequestInfo`): describes an HTTP request. -/
structure RequestInfo where
  method : String
  uri : String
  proto : String
  headers : List (String × String)
  host : String
  remoteAddr : String
  contentLength : ℤ
deriving DecidableEq

/-- Source model (main.go, `ResponseInfo`): describes an HTTP response. -/
structure ResponseInfo where
  headers : List (String × String)
  contentLength : ℤ
  statusCode : ℤ
deriving DecidableEq

/-- Source model (main.go, `ServerEvent`): the event recorded for one
resource entry.  `serverRecv`/`serverSend` are `time.Time` values modelled
as nanoseconds since the epoch. -/
structure ServerEvent where
  request : RequestInfo
  response : ResponseInfo
  route : String
  user : String
  serverRecv : ℤ
  serverSend : ℤ
deriving DecidableEq

/-- Models Go's `int64(f)` conversion of a float64: truncation toward zero.
On a rational, dividing the numerator by the (positive) denominator with
truncated division is exactly truncation toward zero. -/
def truncToZero (q : ℚ) : ℤ := Int.tdiv q.num q.den

/-- Source model (main.go:292-309, loop body of `Endpoint`): the event built
for one entry.  `serverRecv` is the batch start time; `serverSend` is
`time.Unix(0, ((startTime.UnixNano()/1000000)+c)*1000000)` where
`c = int64(duration)` — Go's `/` on int64 is truncated division. -/
def buildEvent (startTimeNs : ℤ) (entry : ClientCallInfo) : ServerEvent :=
  { request :=
      { method := "GET", uri := entry.name, proto := "HTTP/1.1",
        headers := [("X-Req-Header", "a")], host := "example.com",
        remoteAddr := "", contentLength := 0 },
    response := { headers := [], contentLength := 0, statusCode := 200 },
    route := entry.initiatorType,
    user := "u",
    serverRecv := startTimeNs,
    serverSend :=
      (Int.tdiv startTimeNs 1000000 + truncToZero entry.endTime) * 1000000 }

/-- Modelled from the spec: the IdentifierAllocator (§4.1).  The source calls
appdash's `generateID`, an external dependency not under src/; the spec only
requires fresh, non-zero, pairwise-distinct identifiers, so ids are drawn
from a counter.  Returns the fresh id and the next counter state. -/
def generateID (ctr : Nat) : Nat × Nat := (ctr + 1, ctr + 1)

/-- Modelled from the spec: a span identifier (§3) — `(TraceID, id, parentID)`;
`parent = 0` means no parent (the root).  Mirrors appdash's
`SpanID{Trace, Span, Parent}`, an external dependency not under src/. -/
structure SpanID where
  trace : Nat
  span : Nat
  parent : Nat
deriving DecidableEq

/-- Modelled from the spec: appdash's `NewRootSpanID` (called at
main.go:283), not under src/.  Allocates a fresh trace identifier and a
fresh root span identifier with no parent. -/
def NewRootSpanID (ctr : Nat) : SpanID × Nat :=
  let g1 := generateID ctr
  let g2 := generateID g1.snd
  (⟨g1.fst, g2.fst, 0⟩, g2.snd)

/-- Modelled from the spec: appdash's `NewSpanID parent` (called at
main.go:310), not under src/.  Allocates a fresh id under the parent's
trace, with the parent's span id as parent (§4.1 `NewChildID`). -/
def NewSpanID (parent : SpanID) (ctr : Nat) : SpanID × Nat :=
  let g := generateID ctr
  ({ trace := parent.trace, span := g.fst, parent := parent.span }, g.snd)

/-- Source model (main.go:311-314): what one iteration records through the
collector — the span's identifier, its name annotation (`rec.Name`), and the
server event (`rec.Event`). -/
structure Span where
  id : SpanID
  name : String
  event : ServerEvent
deriving DecidableEq

/-- Source model (main.go:291-315): the loop of `Endpoint` over the decoded
entries.  Every entry produces one span; the allocator counter is threaded
through the iterations.  Returns the spans in input order and the final
counter. -/
def endpointLoop (traceID : SpanID) (startTimeNs : ℤ) :
    List ClientCallInfo → Nat → List Span × Nat
  | [], ctr => ([], ctr)
  | entry :: rest, ctr =>
    let sid := NewSpanID traceID ctr
    let tail := endpointLoop traceID startTimeNs rest sid.snd
    (⟨sid.fst, entry.name, buildEvent startTimeNs entry⟩ :: tail.fst, tail.snd)

/-- Source model (main.go:282-319, `Endpoint`): allocates one root span id,
decodes the body, and runs the loop.  A body that fails to decode is
modelled as `Except.error`; the handler logs and continues with the nil
slice (`var t []ClientCallInfo` stays empty), producing no spans. -/
def Endpoint (body : Except String (List ClientCallInfo)) (startTimeNs : ℤ)
    (ctr : Nat) : List Span × Nat :=
  let root := NewRootSpanID ctr
  let t := match body with
    | .ok entries => entries
    | .error _ => []
  endpointLoop root.fst startTimeNs t root.snd

/-- Follows the spec's words (§4.2, §7), for comparison with the source: an
entry is well-formed when its `name` is non-empty; an entry with empty
`name` is a `MalformedEntry`. -/
def specWellFormed (entry : ClientCallInfo) : Bool := entry.name != ""

/-- Modelled from the spec: one bucket of the EvictingSpanStore (§3
`StoreEntry`, §4.4) — the spans collected for one trace identifier and the
bucket's `insertedAt` time.  The store itself (appdash's
`RecentStore`/`MemoryStore`, constructed at main.go:106-110) is an external
dependency not under src/. -/
structure Bucket where
  traceID : Nat
  spans : List Span
  insertedAt : ℤ
deriving DecidableEq

/-- Modelled from the spec: `Collect` (§4.4) — appends the span into the
bucket of its trace identifier, refreshing that bucket's `insertedAt` to
`now`; creates the bucket if absent. -/
def storeCollect (sp : Span) (now : ℤ) : List Bucket → List Bucket
  | [] => [⟨sp.id.trace, [sp], now⟩]
  | b :: rest =>
    if b.traceID = sp.id.trace then ⟨b.traceID, b.spans ++ [sp], now⟩ :: rest
    else b :: storeCollect sp now rest

/-- Modelled from the spec: `Evict(now, minAge)` (§4.4) — removes every
bucket whose `insertedAt` is older than `minAge` relative to `now`, i.e.
keeps a bucket exactly when `now - insertedAt ≤ minAge`. -/
def storeEvict (now minAge : ℤ) (st : List Bucket) : List Bucket :=
  st.filter fun b => decide (now - b.insertedAt ≤ minAge)

/-- Trace identifiers live in the store — the `Traces()` snapshot (§4.4)
projected to identifiers. -/
def storeTraceIDs (st : List Bucket) : List Nat := st.map Bucket.traceID

/-- Modelled from the spec: the operations that mutate the store over time
(§4.4) — ingestion (`Collect`) and the periodic eviction sweep. -/
inductive StoreOp where
  | collect (sp : Span) (now : ℤ)
  | evict (now minAge : ℤ)

/-- Tells whether an operation is a `Collect` for the given trace id. -/
def collectsTrace (tid : Nat) : StoreOp → Bool
  | .collect sp _ => sp.id.trace == tid
  | .evict _ _ => false

/-- Applies one store operation to the store state. -/
def applyOp (st : List Bucket) : StoreOp → List Bucket
  | .collect sp now => storeCollect sp now st
  | .evict now minAge => storeEvict now minAge st

/-- Applies a sequence of store operations in order. -/
def applyOps (st : List Bucket) (ops : List StoreOp) : List Bucket :=
  ops.foldl applyOp st

/-- Concrete entry of the spec's §8 scenario: `{name:"a.js", duration:150,
initiatorType:"script"}`. -/
def entryAJs : ClientCallInfo := ⟨"a.js", "resource", 0, 150, "script"⟩

/-- Concrete entry of the spec's §8 scenario: `{name:"", duration:10,
initiatorType:"img"}` — malformed per the spec (empty name). -/
def entryEmptyName : ClientCallInfo := ⟨"", "resource", 0, 10, "img"⟩

/-- The two-entry batch of the spec's §8 scenario. -/
def scenarioBatch : List ClientCallInfo := [entryAJs, entryEmptyName]

/-- Concrete entry with a negative duration (float `-5`). -/
def entryNegDuration : ClientCallInfo := ⟨"a.js", "resource", 0, -5, "script"⟩

/-- Concrete entry with a sub-millisecond non-negative duration (float
`0.5`). -/
def entryHalfMs : ClientCallInfo := ⟨"b.css", "resource", 0, mkRat 1 2, "css"⟩

/-- Concrete entry with duration `0.9` ms, used for the rounding analysis. -/
def entryPointNine : ClientCallInfo := ⟨"c.png", "resource", 0, mkRat 9 10, "img"⟩

/-- First child span of the scenario batch when the counter starts at 0 and
the batch start time is 7 ns. -/
def scenarioFirstSpan : Span := ⟨⟨1, 3, 2⟩, "a.js", buildEvent 7 entryAJs⟩

/-- Second child span of the scenario batch when the counter starts at 0 and
the batch start time is 7 ns. -/
def scenarioSecondSpan : Span := ⟨⟨1, 4, 2⟩, "", buildEvent 7 entryEmptyName⟩

/-- A concrete span used to exercise the store operations. -/
def demoSpan : Span := ⟨⟨9, 11, 10⟩, "d.js", buildEvent 0 entryAJs⟩

/-- On a non-negative rational, truncation toward zero is the floor. -/
theorem truncToZero_of_nonneg (q : ℚ) (h : 0 ≤ q) : truncToZero q = ⌊q⌋ := by
  rw [Rat.floor_def, truncToZero,
    Int.tdiv_eq_ediv (Rat.num_nonneg.mpr h) (Int.natCast_nonneg q.den)]

/-- On a negative rational, truncation toward zero is the ceiling. -/
theorem truncToZero_of_neg (q : ℚ) (h : q < 0) : truncToZero q = ⌈q⌉ := by
  have h1 : (0 : ℚ) ≤ -q := by linarith
  have h2 : truncToZero (-q) = ⌊-q⌋ := truncToZero_of_nonneg (-q) h1
  have h3 : truncToZero (-q) = -truncToZero q := by
    simp [truncToZero, Rat.neg_num, Rat.neg_den, Int.neg_tdiv]
  rw [Int.floor_neg] at h2
  omega

/-- The loop of `Endpoint` produces exactly one span per decoded entry. -/
theorem endpointLoop_length (traceID : SpanID) (t : ℤ)
    (entries : List ClientCallInfo) (ctr : Nat) :
    (endpointLoop traceID t entries ctr).fst.length = entries.length := by
  induction entries generalizing ctr with
  | nil => rfl
  | cons e rest ih => simp [endpointLoop, ih]

/-- Every span produced by the loop carries the loop's trace id, the root's
span id as parent, and the batch start time as `serverRecv`. -/
theorem endpointLoop_mem (traceID : SpanID) (t : ℤ)
    (entries : List ClientCallInfo) (ctr : Nat) (sp : Span)
    (h : sp ∈ (endpointLoop traceID t entries ctr).fst) :
    sp.id.trace = traceID.trace ∧ sp.id.parent = traceID.span ∧
    sp.event.serverRecv = t := by
  induction entries generalizing ctr with
  | nil => simp [endpointLoop] at h
  | cons e rest ih =>
    simp only [endpointLoop, List.mem_cons] at h
    rcases h with h | h
    · subst h
      exact ⟨rfl, rfl, rfl⟩
    · exact ih _ h

/-- Membership in the trace-id snapshot, characterised through buckets. -/
theorem mem_storeTraceIDs {tid : Nat} {st : List Bucket} :
    tid ∈ storeTraceIDs st ↔ ∃ b ∈ st, b.traceID = tid := by
  simp [storeTraceIDs]

/-- Every bucket present after a `Collect` either was already present or
belongs to the collected span's trace. -/
theorem storeCollect_traceID (sp : Span) (now : ℤ) (st : List Bucket)
    (b : Bucket) (h : b ∈ storeCollect sp now st) :
    b.traceID = sp.id.trace ∨ b.traceID ∈ storeTraceIDs st := by
  induction st with
  | nil =>
    simp only [storeCollect, List.mem_singleton] at h
    subst h
    exact Or.inl rfl
  | cons hd rest ih =>
    simp only [storeCollect] at h
    by_cases hb : hd.traceID = sp.id.trace
    · rw [if_pos hb] at h
      rcases List.mem_cons.mp h with h | h
      · subst h
        exact Or.inl hb
      · exact Or.inr (mem_storeTraceIDs.mpr ⟨b, List.mem_cons_of_mem hd h, rfl⟩)
    · rw [if_neg hb] at h
      rcases List.mem_cons.mp h with h | h
      · subst h
        exact Or.inr (mem_storeTraceIDs.mpr ⟨b, List.mem_cons_self b rest, rfl⟩)
      · rcases ih h with h1 | h1
        · exact Or.inl h1
        · rcases mem_storeTraceIDs.mp h1 with ⟨c, hc, hcid⟩
          exact Or.inr (mem_storeTraceIDs.mpr ⟨c, List.mem_cons_of_mem hd hc, hcid⟩)

/-- Membership in the store after an eviction sweep: a bucket survives
exactly when it was present and not older than `minAge` relative to `now`. -/
theorem mem_storeEvict {now minAge : ℤ} {st : List Bucket} {b : Bucket} :
    b ∈ storeEvict now minAge st ↔ b ∈ st ∧ now - b.insertedAt ≤ minAge := by
  simp [storeEvict, List.mem_filter]

/-- A trace id absent from the store stays absent under any operation that
does not collect for it. -/
theorem applyOp_absent (tid : Nat) (st : List Bucket) (op : StoreOp)
    (hst : tid ∉ storeTraceIDs st) (hop : collectsTrace tid op = false) :
    tid ∉ storeTraceIDs (applyOp st op) := by
  cases op with
  | collect sp now =>
    have hsp : sp.id.trace ≠ tid := by
      simpa [collectsTrace] using hop
    intro hmem
    rcases mem_storeTraceIDs.mp hmem with ⟨b, hb, hbid⟩
    rcases storeCollect_traceID sp now st b hb with h | h
    · exact hsp (h ▸ hbid)
    · exact hst (hbid ▸ h)
  | evict now minAge =>
    intro hmem
    rcases mem_storeTraceIDs.mp hmem with ⟨b, hb, hbid⟩
    exact hst (mem_storeTraceIDs.mpr ⟨b, (mem_storeEvict.mp hb).1, hbid⟩)

/-- A trace id absent from the store stays absent across any sequence of
operations none of which collects for it. -/
theorem applyOps_absent (tid : Nat) (ops : List StoreOp) (st : List Bucket)
    (hst : tid ∉ storeTraceIDs st)
    (hops : ∀ op ∈ ops, collectsTrace tid op = false) :
    tid ∉ storeTraceIDs (applyOps st ops) := by
  induction ops generalizing st with
  | nil => simpa [applyOps] using hst
  | cons op rest ih =>
    have h1 : collectsTrace tid op = false := hops op (List.mem_cons_self op rest)
    have h2 : ∀ o ∈ rest, collectsTrace tid o = false :=
      fun o ho => hops o (List.mem_cons_of_mem op ho)
    have hstep := applyOp_absent tid st op hst h1
    simpa [applyOps] using ih (applyOp st op) hstep h2

/-- C1 counterexample: on the spec's scenario batch (one well-formed entry,
one empty-name entry) the handler produces two child spans, not one — the
empty-name entry is not skipped. -/
theorem emptyName_entry_skipped_cex :
    (Endpoint (.ok scenarioBatch) 1000000000 0).fst.length ≠ 1 := by decide

/-- C1 (amended): no entry is skipped — every decoded entry produces exactly
one span, empty names included; the scenario batch yields exactly two child
spans whose URIs are `"a.js"` and `""` in input order. -/
theorem emptyName_entry_not_skipped (body : List ClientCallInfo) (t : ℤ)
    (ctr : Nat) :
    (Endpoint (.ok body) t ctr).fst.length = body.length ∧
    (Endpoint (.ok scenarioBatch) t ctr).fst.length = 2 ∧
    ((Endpoint (.ok scenarioBatch) t ctr).fst.map
        fun sp => sp.event.request.uri) = ["a.js", ""] := by
  refine ⟨?_, rfl, rfl⟩
  simpa [Endpoint] using
    endpointLoop_length (NewRootSpanID ctr).fst t body (NewRootSpanID ctr).snd

/-- C2 counterexample: for the entry with duration `-5`, the claim's clamped
non-negative duration is `0` so the claimed send equals recv up to
integer-millisecond rounding, yet the code produces `send - recv = -5 ms`
(5·10^6 ns below recv, beyond any 1 ms rounding slack). -/
theorem send_clamped_cex :
    entryNegDuration.endTime < 0 ∧
    (buildEvent 0 entryNegDuration).serverSend
        - (buildEvent 0 entryNegDuration).serverRecv = -5000000 ∧
    (buildEvent 0 entryNegDuration).serverSend
        < (buildEvent 0 entryNegDuration).serverRecv ∧
    ¬ (((buildEvent 0 entryNegDuration).serverSend
        - (buildEvent 0 entryNegDuration).serverRecv).natAbs < 1000000) := by
  decide

/-- C2 (amended): no clamping is applied — for every entry and every
non-negative batch start time, `send - recv` equals the duration truncated
toward zero, in milliseconds, minus the sub-millisecond remainder of the
start time in nanoseconds; negative durations propagate unchanged. -/
theorem send_sub_recv_eq_trunc_duration (t : ℤ) (e : ClientCallInfo)
    (h : 0 ≤ t) :
    (buildEvent t e).serverSend - (buildEvent t e).serverRecv
      = truncToZero e.endTime * 1000000 - t % 1000000 := by
  show (Int.tdiv t 1000000 + truncToZero e.endTime) * 1000000 - t = _
  rw [Int.tdiv_eq_ediv h (by norm_num)]
  omega

/-- Witness for the amended C2 theorem at the start time 1500000 ns and the
scenario's first entry. -/
theorem send_sub_recv_eq_trunc_duration_witness :
    (buildEvent 1500000 entryAJs).serverSend
        - (buildEvent 1500000 entryAJs).serverRecv
      = truncToZero entryAJs.endTime * 1000000 - (1500000 : ℤ) % 1000000 :=
  send_sub_recv_eq_trunc_duration 1500000 entryAJs (by decide)

/-- C3 counterexample: a non-negative duration of half a millisecond at a
batch start time of 0.5 ms past a millisecond boundary yields a span with
`send < recv`, and the handler stores that span unchanged — it is neither
rejected nor clamped. -/
theorem send_ge_recv_invariant_cex :
    0 ≤ entryHalfMs.endTime ∧
    (Endpoint (.ok [entryHalfMs]) 500000 0).fst
      = [⟨⟨1, 3, 2⟩, "b.css", buildEvent 500000 entryHalfMs⟩] ∧
    (buildEvent 500000 entryHalfMs).serverSend
      < (buildEvent 500000 entryHalfMs).serverRecv := by decide

/-- C3 (amended): the code enforces no `send ≥ recv` invariant and spans are
stored exactly as computed; for a non-negative batch start time, `send ≥
recv` holds exactly when the duration truncated toward zero (in ms, scaled
to ns) is at least the start time's sub-millisecond remainder. -/
theorem send_ge_recv_iff (t : ℤ) (e : ClientCallInfo) (h : 0 ≤ t) :
    ((buildEvent t e).serverRecv ≤ (buildEvent t e).serverSend
      ↔ t % 1000000 ≤ truncToZero e.endTime * 1000000) := by
  show (t ≤ (Int.tdiv t 1000000 + truncToZero e.endTime) * 1000000 ↔ _)
  rw [Int.tdiv_eq_ediv h (by norm_num)]
  omega

/-- Witness for the amended C3 theorem at start time 0 and the scenario's
first entry. -/
theorem send_ge_recv_iff_witness :
    ((buildEvent 0 entryAJs).serverRecv ≤ (buildEvent 0 entryAJs).serverSend
      ↔ (0 : ℤ) % 1000000 ≤ truncToZero entryAJs.endTime * 1000000) :=
  send_ge_recv_iff 0 entryAJs (by decide)

/-- C4 counterexample: on the scenario batch the number of child spans does
not equal the number of well-formed (non-empty-name) entries — the handler
produces one span per decoded entry, well-formed or not. -/
theorem children_count_cex :
    (Endpoint (.ok scenarioBatch) 1000000000 0).fst.length
      ≠ (scenarioBatch.filter specWellFormed).length := by decide

/-- C4 (amended): each batch allocates exactly one fresh root identifier and
produces one child span per decoded entry (not per well-formed entry); every
child span's trace id equals the root's trace id and its parent id equals
the root's span id. -/
theorem one_trace_per_batch (body : List ClientCallInfo) (t : ℤ) (ctr : Nat)
    (sp : Span) (h : sp ∈ (Endpoint (.ok body) t ctr).fst) :
    (Endpoint (.ok body) t ctr).fst.length = body.length ∧
    sp.id.trace = (NewRootSpanID ctr).fst.trace ∧
    sp.id.parent = (NewRootSpanID ctr).fst.span := by
  have hm := endpointLoop_mem (NewRootSpanID ctr).fst t body
    (NewRootSpanID ctr).snd sp (by simpa [Endpoint] using h)
  refine ⟨?_, hm.1, hm.2.1⟩
  simpa [Endpoint] using
    endpointLoop_length (NewRootSpanID ctr).fst t body (NewRootSpanID ctr).snd

/-- Witness for the amended C4 theorem on the scenario batch at start time 7
and counter 0, with its first produced span. -/
theorem one_trace_per_batch_witness :
    (Endpoint (.ok scenarioBatch) 7 0).fst.length = scenarioBatch.length ∧
    scenarioFirstSpan.id.trace = (NewRootSpanID 0).fst.trace ∧
    scenarioFirstSpan.id.parent = (NewRootSpanID 0).fst.span :=
  one_trace_per_batch scenarioBatch 7 0 scenarioFirstSpan (by decide)

/-- C5 (confirmed): every span built from a batch — whatever the decode
outcome — has `serverRecv` equal to the batch start time captured once
before the loop. -/
theorem spans_share_recv (body : Except String (List ClientCallInfo))
    (t : ℤ) (ctr : Nat) (sp : Span) (h : sp ∈ (Endpoint body t ctr).fst) :
    sp.event.serverRecv = t := by
  cases body with
  | ok entries =>
    exact (endpointLoop_mem (NewRootSpanID ctr).fst t entries
      (NewRootSpanID ctr).snd sp (by simpa [Endpoint] using h)).2.2
  | error msg => simp [Endpoint, endpointLoop] at h

/-- Witness for C5 on the scenario batch at start time 7 and counter 0,
with its second produced span. -/
theorem spans_share_recv_witness :
    scenarioSecondSpan.event.serverRecv = 7 :=
  spans_share_recv (.ok scenarioBatch) 7 0 scenarioSecondSpan (by decide)

/-- C6 (confirmed): for every entry and start time, the built event's route
equals the entry's `initiatorType`, its request URI equals the entry's
`name`, its method is the constant `"GET"`, and its response status is the
constant 200. -/
theorem span_labels_constant (t : ℤ) (e : ClientCallInfo) :
    (buildEvent t e).route = e.initiatorType ∧
    (buildEvent t e).request.uri = e.name ∧
    (buildEvent t e).request.method = "GET" ∧
    (buildEvent t e).response.statusCode = 200 :=
  ⟨rfl, rfl, rfl, rfl⟩

/-- C7 (confirmed): when the request body fails to decode, the handler
completes normally with zero spans — the nil entry slice makes the loop body
unreachable, so the batch is dropped without crashing. -/
theorem decode_failure_yields_no_spans (msg : String) (t : ℤ) (ctr : Nat) :
    (Endpoint (.error msg) t ctr).fst = [] := rfl

/-- C8 (confirmed, spec-modelled store): an eviction sweep removes exactly
the buckets whose `insertedAt` is older than `minAge` relative to `now`;
and once a trace id is absent from the store, no sequence of operations
that contains no `Collect` for it can make it reappear in the snapshot. -/
theorem evict_exact_and_monotonic (now minAge : ℤ) (st0 st : List Bucket)
    (tid : Nat) (ops : List StoreOp)
    (h1 : tid ∉ storeTraceIDs st)
    (h2 : ∀ op ∈ ops, collectsTrace tid op = false) :
    tid ∉ storeTraceIDs (applyOps st ops) ∧
    (∀ b : Bucket, b ∈ storeEvict now minAge st0
        ↔ b ∈ st0 ∧ now - b.insertedAt ≤ minAge) :=
  ⟨applyOps_absent tid ops st h1 h2, fun _ => mem_storeEvict⟩

/-- Witness for C8: trace id 5 is absent from a one-bucket store and stays
absent across a collect for another trace followed by an eviction sweep. -/
theorem evict_exact_and_monotonic_witness :
    (5 : Nat) ∉ storeTraceIDs
        (applyOps [⟨7, [], 0⟩] [.collect demoSpan 10, .evict 20 3]) ∧
    (∀ b : Bucket, b ∈ storeEvict 20 3 [(⟨7, [], 0⟩ : Bucket)]
        ↔ b ∈ [(⟨7, [], 0⟩ : Bucket)] ∧ (20 : ℤ) - b.insertedAt ≤ 3) :=
  evict_exact_and_monotonic 20 3 [⟨7, [], 0⟩] [⟨7, [], 0⟩] 5
    [.collect demoSpan 10, .evict 20 3] (by decide) (by decide)

/-- C10 (confirmed): `send` always lies exactly on a millisecond boundary
(the start time is truncated to whole milliseconds and the duration is
truncated toward zero — floor on non-negative, ceiling on negative values),
`recv` keeps full nanosecond precision, and for the concrete start time
500500 ns (non-zero sub-millisecond part) with duration 0.9 ms the computed
`send` is strictly earlier than `recv` although the duration is
non-negative. -/
theorem send_ms_boundary_and_lt_recv :
    (∀ (t : ℤ) (e : ClientCallInfo),
        (buildEvent t e).serverSend % 1000000 = 0) ∧
    (∀ (t : ℤ) (e : ClientCallInfo), (buildEvent t e).serverRecv = t) ∧
    (∀ q : ℚ, 0 ≤ q → truncToZero q = ⌊q⌋) ∧
    (∀ q : ℚ, q < 0 → truncToZero q = ⌈q⌉) ∧
    ((buildEvent 500500 entryPointNine).serverRecv % 1000000 ≠ 0 ∧
      0 ≤ entryPointNine.endTime ∧ entryPointNine.endTime < 1 ∧
      (buildEvent 500500 entryPointNine).serverSend
        < (buildEvent 500500 entryPointNine).serverRecv) := by
  refine ⟨?_, fun t e => rfl, truncToZero_of_nonneg, truncToZero_of_neg,
    by decide⟩
  intro t e
  show ((Int.tdiv t 1000000 + truncToZero e.endTime) * 1000000) % 1000000 = 0
  omega

/-- Witness for C10, instantiating its universal parts at the start time
500500 ns and the scenario's first entry. -/
theorem send_ms_boundary_and_lt_recv_witness :
    (buildEvent 500500 entryAJs).serverSend % 1000000 = 0 ∧
    truncToZero 150 = ⌊(150 : ℚ)⌋ :=
  ⟨send_ms_boundary_and_lt_recv.1 500500 entryAJs,
   send_ms_boundary_and_lt_recv.2.2.1 150 (by decide)⟩

end Loadtimes
